import Mathlib

/-
  Verification of AIInterviewMaster against its specification.

  Shallow embedding of:
  - the media-capture and recording hook
    (src/client/src/hooks/useWebRTC.ts: startLocalStream, toggleMicrophone,
    toggleCamera, ondataavailable, stopRecording);
  - the WebSocket session coordinator
    (src/server/socket.ts: handleStartInterview, handleUserMessage,
    handlePauseInterview, handleResumeInterview, handleEndInterview);
  - the conversation payload builder and its history filter
    (generateNextQuestion in the OpenAI integration module).

  External collaborators (getUserMedia, the MediaRecorder event source, the
  OpenAI chat completion call) are passed in as explicit parameters, so each
  handler is a pure function from its inputs and the collaborator outcomes to
  the successor state and the ordered list of messages sent over the socket.
-/

namespace AIInterview

/- ## Media capture data model (useWebRTC.ts) -/

/-- Kind of a media track, audio or video. -/
inductive TrackKind where
  | audio
  | video
deriving DecidableEq

/-- Liveness state of a media track. -/
inductive ReadyState where
  | live
  | ended
deriving DecidableEq

/-- A single device track: kind, the user-controlled enabled flag, the device
label, and the liveness state. -/
structure Track where
  kind : TrackKind
  enabled : Bool
  label : String
  readyState : ReadyState
deriving DecidableEq

/-- A media stream is the ordered list of its tracks. -/
abbrev MediaStream := List Track

/-- Audio constraint options used by the ideal tier
(echoCancellation, noiseSuppression, autoGainControl). -/
structure AudioTrackConstraints where
  echoCancellation : Bool
  noiseSuppression : Bool
  autoGainControl : Bool
deriving DecidableEq

/-- Audio member of a getUserMedia constraints object: either a plain boolean
or the detailed option record. -/
inductive AudioConstraint where
  | flag (enabled : Bool)
  | advanced (c : AudioTrackConstraints)
deriving DecidableEq

/-- Video constraint options used by the ideal tier
(width, height, frameRate, each with ideal and min). -/
structure VideoTrackConstraints where
  widthIdeal : Nat
  widthMin : Nat
  heightIdeal : Nat
  heightMin : Nat
  frameRateIdeal : Nat
  frameRateMin : Nat
deriving DecidableEq

/-- Video member of a getUserMedia constraints object. -/
inductive VideoConstraint where
  | flag (enabled : Bool)
  | advanced (c : VideoTrackConstraints)
deriving DecidableEq

/-- A getUserMedia constraints object. -/
structure Constraints where
  audio : AudioConstraint
  video : VideoConstraint
deriving DecidableEq

/-- The ideal constraint tier of startLocalStream: full audio processing and
1280x720 at 30 fps with minimums 640x480 at 15 fps. -/
def idealConstraints : Constraints :=
  { audio := .advanced ⟨true, true, true⟩,
    video := .advanced ⟨1280, 640, 720, 480, 30, 15⟩ }

/-- The minimal audio+video fallback tier of startLocalStream. -/
def fallbackConstraints : Constraints :=
  { audio := .flag true, video := .flag true }

/-- The audio-only last-resort tier of startLocalStream. -/
def audioOnlyConstraints : Constraints :=
  { audio := .flag true, video := .flag false }

/-- The error message raised when every constraint tier fails. -/
def deviceUnavailableMessage : String :=
  "Could not access any media devices. Please check your camera and microphone permissions."

/-- The fixed tier order startLocalStream walks through. -/
def startLocalStreamTiers : List Constraints :=
  [idealConstraints, fallbackConstraints, audioOnlyConstraints]

/-- Acquisition core of startLocalStream (useWebRTC.ts lines 84-135): try the
ideal constraints, fall back to minimal audio+video, then to audio only, and
fail with the device-unavailable message when all three requests fail.  The
device is the explicit parameter gum; the returned first component is the
ordered list of constraint objects actually passed to the device. -/
def startLocalStream (gum : Constraints → Except String MediaStream) :
    List Constraints × Except String MediaStream :=
  match gum idealConstraints with
  | .ok stream => ([idealConstraints], .ok stream)
  | .error _ =>
    match gum fallbackConstraints with
    | .ok stream => ([idealConstraints, fallbackConstraints], .ok stream)
    | .error _ =>
      match gum audioOnlyConstraints with
      | .ok stream =>
        ([idealConstraints, fallbackConstraints, audioOnlyConstraints], .ok stream)
      | .error _ =>
        ([idealConstraints, fallbackConstraints, audioOnlyConstraints],
          .error deviceUnavailableMessage)

/-- Spec-side reading of the acquisition contract: the stream of the first
tier in the list whose device request succeeds. -/
def specFirstSuccess (gum : Constraints → Except String MediaStream) :
    List Constraints → Option MediaStream
  | [] => none
  | c :: rest =>
    match gum c with
    | .ok stream => some stream
    | .error _ => specFirstSuccess gum rest

/-- Spec-side reading of the acquisition contract: the tiers attempted, in
order, stopping at the first tier that succeeds. -/
def specAttemptedTiers (gum : Constraints → Except String MediaStream) :
    List Constraints → List Constraints
  | [] => []
  | c :: rest =>
    match gum c with
    | .ok _ => [c]
    | .error _ => c :: specAttemptedTiers gum rest

/-- Whether a device request succeeded. -/
def isOkB : Except String MediaStream → Bool
  | .ok _ => true
  | .error _ => false

/- ## Track toggling (useWebRTC.ts lines 297-317) -/

/-- Client-side hook state relevant to the toggles: the current stream and the
two UI flags. -/
structure HookState where
  localStream : Option MediaStream
  isMicMuted : Bool
  isCameraOff : Bool
deriving DecidableEq

/-- Flip the enabled flag of a track when it has the given kind. -/
def flipIfKind (k : TrackKind) (t : Track) : Track :=
  if t.kind = k then { t with enabled := !t.enabled } else t

/-- Flip the enabled flag on every track of the given kind, as the forEach
loops of toggleMicrophone and toggleCamera do. -/
def flipTracksOfKind (k : TrackKind) (s : MediaStream) : MediaStream :=
  s.map (flipIfKind k)

/-- toggleMicrophone: when a stream is present, flip enabled on every audio
track and flip the isMicMuted flag; otherwise do nothing. -/
def toggleMicrophone (st : HookState) : HookState :=
  match st.localStream with
  | none => st
  | some s =>
    { st with
      localStream := some (flipTracksOfKind .audio s),
      isMicMuted := !st.isMicMuted }

/-- toggleCamera: when a stream is present, flip enabled on every video track
and flip the isCameraOff flag; otherwise do nothing. -/
def toggleCamera (st : HookState) : HookState :=
  match st.localStream with
  | none => st
  | some s =>
    { st with
      localStream := some (flipTracksOfKind .video s),
      isCameraOff := !st.isCameraOff }

/-- The identity of a track apart from its enabled flag. -/
def trackShape (t : Track) : TrackKind × String × ReadyState :=
  (t.kind, t.label, t.readyState)

/-- The enabled flag of a track. -/
def enabledOf (t : Track) : Bool :=
  t.enabled

/-- The enabled flag a track has after one toggle of the given kind. -/
def toggledEnabled (k : TrackKind) (t : Track) : Bool :=
  if t.kind = k then !t.enabled else t.enabled

/- ## Recording chunks and stopRecording (useWebRTC.ts lines 392-399, 479-600) -/

/-- A recorded binary fragment, as its byte list. -/
abbrev Chunk := List Nat

/-- The dataavailable handler: append the delivered data to the chunk list
exactly when its size is positive. -/
def ondataavailable (recordedChunks : List Chunk) (data : Chunk) : List Chunk :=
  if 0 < data.length then recordedChunks ++ [data] else recordedChunks

/-- The chunk list collected after a sequence of dataavailable events. -/
def collectChunks (events : List Chunk) : List Chunk :=
  events.foldl ondataavailable []

/-- Every event in the sequence carries data of positive size. -/
def allPositiveSize (events : List Chunk) : Bool :=
  events.all (fun c => decide (0 < c.length))

/-- The distinct resolution paths of stopRecording: no recorder present, the
normal onstop acknowledgment, the 10-second safety timeout, resuming a paused
recorder before stopping, a recorder already inactive, and an exception while
requesting the stop. -/
inductive StopPath where
  | noRecorder
  | normalStop
  | stopTimeout
  | pausedThenStop
  | alreadyInactive
  | stopError
deriving DecidableEq

/-- Resolution of stopRecording: each path assembles the collected chunks into
one blob (modelled as the concatenation of the chunk bytes) and resolves null
when no chunk was ever collected.  Each match arm mirrors the corresponding
resolve site in the source, including the inverted emptiness test of the
exception path. -/
def stopRecording (path : StopPath) (recordedChunks : List Chunk) : Option Chunk :=
  match path with
  | .noRecorder =>
    if recordedChunks.length = 0 then none else some recordedChunks.flatten
  | .normalStop =>
    if recordedChunks.length = 0 then none else some recordedChunks.flatten
  | .stopTimeout =>
    if recordedChunks.length = 0 then none else some recordedChunks.flatten
  | .pausedThenStop =>
    if recordedChunks.length = 0 then none else some recordedChunks.flatten
  | .alreadyInactive =>
    if recordedChunks.length = 0 then none else some recordedChunks.flatten
  | .stopError =>
    if recordedChunks.length > 0 then some recordedChunks.flatten else none

/- ## Lemmas for the media-capture theorems -/

theorem flipIfKind_involutive (k : TrackKind) (t : Track) :
    flipIfKind k (flipIfKind k t) = t := by
  obtain ⟨tk, te, tl, tr⟩ := t
  by_cases h : tk = k <;> simp [flipIfKind, h]

theorem flipTracksOfKind_involutive (k : TrackKind) (s : MediaStream) :
    flipTracksOfKind k (flipTracksOfKind k s) = s := by
  induction s with
  | nil => rfl
  | cons t ts ih =>
    simpa [flipTracksOfKind, flipIfKind_involutive] using ih

theorem trackShape_flipIfKind (k : TrackKind) (t : Track) :
    trackShape (flipIfKind k t) = trackShape t := by
  unfold flipIfKind trackShape
  by_cases h : t.kind = k <;> simp [h]

theorem map_trackShape_flip (k : TrackKind) (s : MediaStream) :
    (flipTracksOfKind k s).map trackShape = s.map trackShape := by
  induction s with
  | nil => rfl
  | cons t ts ih =>
    simp [flipTracksOfKind, trackShape_flipIfKind]

theorem enabledOf_flipIfKind (k : TrackKind) (t : Track) :
    enabledOf (flipIfKind k t) = toggledEnabled k t := by
  unfold flipIfKind enabledOf toggledEnabled
  by_cases h : t.kind = k <;> simp [h]

theorem map_enabledOf_flip (k : TrackKind) (s : MediaStream) :
    (flipTracksOfKind k s).map enabledOf = s.map (toggledEnabled k) := by
  induction s with
  | nil => rfl
  | cons t ts ih =>
    simp [flipTracksOfKind, enabledOf_flipIfKind]

theorem foldl_ondataavailable (events : List Chunk) (acc : List Chunk)
    (h : allPositiveSize events = true) :
    events.foldl ondataavailable acc = acc ++ events := by
  induction events generalizing acc with
  | nil => simp
  | cons c cs ih =>
    have h' : 0 < c.length ∧ allPositiveSize cs = true := by
      simpa [allPositiveSize] using h
    simp [List.foldl_cons, ondataavailable, h'.1, ih _ h'.2]

/- ## Claim theorems for the media subsystem -/

/-- C5: startLocalStream tries the tiers in the fixed order ideal, minimal,
audio-only; it passes exactly the tiers up to and including the first success
to the device and returns that tier's stream, and it fails with the
device-unavailable message exactly when all three tiers fail. -/
theorem startLocalStream_tier_fallback
    (gum : Constraints → Except String MediaStream) :
    startLocalStream gum
      = (specAttemptedTiers gum startLocalStreamTiers,
          match specFirstSuccess gum startLocalStreamTiers with
          | some stream => Except.ok stream
          | none => Except.error deviceUnavailableMessage) ∧
    ((startLocalStream gum).2 = Except.error deviceUnavailableMessage ↔
      isOkB (gum idealConstraints) = false ∧
        isOkB (gum fallbackConstraints) = false ∧
          isOkB (gum audioOnlyConstraints) = false) := by
  cases h1 : gum idealConstraints with
  | ok s =>
    constructor <;>
      simp [startLocalStream, startLocalStreamTiers, specAttemptedTiers,
        specFirstSuccess, isOkB, h1]
  | error e1 =>
    cases h2 : gum fallbackConstraints with
    | ok s =>
      constructor <;>
        simp [startLocalStream, startLocalStreamTiers, specAttemptedTiers,
          specFirstSuccess, isOkB, h1, h2]
    | error e2 =>
      cases h3 : gum audioOnlyConstraints with
      | ok s =>
        constructor <;>
          simp [startLocalStream, startLocalStreamTiers, specAttemptedTiers,
            specFirstSuccess, isOkB, h1, h2, h3]
      | error e3 =>
        constructor <;>
          simp [startLocalStream, startLocalStreamTiers, specAttemptedTiers,
            specFirstSuccess, isOkB, h1, h2, h3]

/-- C9: with a stream present, toggleMicrophone and toggleCamera are
involutions on the whole hook state; one toggle maps the stream by flipping
exactly the tracks of its kind, preserves every track's identity (kind, label,
readyState) and the track count, and flips the enabled flag of precisely the
tracks of the toggled kind. -/
theorem toggleTrack_involutive_frame (st : HookState) (s : MediaStream)
    (h : st.localStream = some s) :
    toggleMicrophone (toggleMicrophone st) = st ∧
    toggleCamera (toggleCamera st) = st ∧
    (toggleMicrophone st).localStream = some (flipTracksOfKind .audio s) ∧
    (toggleCamera st).localStream = some (flipTracksOfKind .video s) ∧
    (flipTracksOfKind .audio s).map trackShape = s.map trackShape ∧
    (flipTracksOfKind .video s).map trackShape = s.map trackShape ∧
    (flipTracksOfKind .audio s).length = s.length ∧
    (flipTracksOfKind .video s).length = s.length ∧
    (flipTracksOfKind .audio s).map enabledOf = s.map (toggledEnabled .audio) ∧
    (flipTracksOfKind .video s).map enabledOf = s.map (toggledEnabled .video) := by
  obtain ⟨ls, m, c⟩ := st
  simp only [] at h
  subst h
  refine ⟨?_, ?_, ?_, ?_, map_trackShape_flip _ _, map_trackShape_flip _ _,
    ?_, ?_, map_enabledOf_flip _ _, map_enabledOf_flip _ _⟩
  · simp [toggleMicrophone, flipTracksOfKind_involutive]
  · simp [toggleCamera, flipTracksOfKind_involutive]
  · simp [toggleMicrophone]
  · simp [toggleCamera]
  · simp [flipTracksOfKind]
  · simp [flipTracksOfKind]

/-- Witness for C9 at a concrete two-track stream. -/
theorem toggleTrack_involutive_frame_witness :
    (HookState.mk (some [⟨.audio, true, "mic", .live⟩, ⟨.video, false, "cam", .live⟩])
        false false).localStream
      = some [⟨.audio, true, "mic", .live⟩, ⟨.video, false, "cam", .live⟩] ∧
    (toggleMicrophone (toggleMicrophone
        (HookState.mk (some [⟨.audio, true, "mic", .live⟩, ⟨.video, false, "cam", .live⟩])
          false false))
      = HookState.mk (some [⟨.audio, true, "mic", .live⟩, ⟨.video, false, "cam", .live⟩])
          false false ∧
    toggleCamera (toggleCamera
        (HookState.mk (some [⟨.audio, true, "mic", .live⟩, ⟨.video, false, "cam", .live⟩])
          false false))
      = HookState.mk (some [⟨.audio, true, "mic", .live⟩, ⟨.video, false, "cam", .live⟩])
          false false ∧
    (toggleMicrophone
        (HookState.mk (some [⟨.audio, true, "mic", .live⟩, ⟨.video, false, "cam", .live⟩])
          false false)).localStream
      = some (flipTracksOfKind .audio
          [⟨.audio, true, "mic", .live⟩, ⟨.video, false, "cam", .live⟩]) ∧
    (toggleCamera
        (HookState.mk (some [⟨.audio, true, "mic", .live⟩, ⟨.video, false, "cam", .live⟩])
          false false)).localStream
      = some (flipTracksOfKind .video
          [⟨.audio, true, "mic", .live⟩, ⟨.video, false, "cam", .live⟩]) ∧
    (flipTracksOfKind .audio
        [⟨.audio, true, "mic", .live⟩, ⟨.video, false, "cam", .live⟩]).map trackShape
      = ([⟨.audio, true, "mic", .live⟩, ⟨.video, false, "cam", .live⟩] : MediaStream).map
          trackShape ∧
    (flipTracksOfKind .video
        [⟨.audio, true, "mic", .live⟩, ⟨.video, false, "cam", .live⟩]).map trackShape
      = ([⟨.audio, true, "mic", .live⟩, ⟨.video, false, "cam", .live⟩] : MediaStream).map
          trackShape ∧
    (flipTracksOfKind .audio
        [⟨.audio, true, "mic", .live⟩, ⟨.video, false, "cam", .live⟩]).length
      = ([⟨.audio, true, "mic", .live⟩, ⟨.video, false, "cam", .live⟩] : MediaStream).length ∧
    (flipTracksOfKind .video
        [⟨.audio, true, "mic", .live⟩, ⟨.video, false, "cam", .live⟩]).length
      = ([⟨.audio, true, "mic", .live⟩, ⟨.video, false, "cam", .live⟩] : MediaStream).length ∧
    (flipTracksOfKind .audio
        [⟨.audio, true, "mic", .live⟩, ⟨.video, false, "cam", .live⟩]).map enabledOf
      = ([⟨.audio, true, "mic", .live⟩, ⟨.video, false, "cam", .live⟩] : MediaStream).map
          (toggledEnabled .audio) ∧
    (flipTracksOfKind .video
        [⟨.audio, true, "mic", .live⟩, ⟨.video, false, "cam", .live⟩]).map enabledOf
      = ([⟨.audio, true, "mic", .live⟩, ⟨.video, false, "cam", .live⟩] : MediaStream).map
          (toggledEnabled .video)) :=
  ⟨rfl, toggleTrack_involutive_frame _ _ rfl⟩

/-- C1: after any sequence of chunk-append events, every stopRecording path
resolves the concatenation of exactly those chunks in append order, and
resolves null exactly when no chunk was ever collected. -/
theorem stopRecording_no_data_loss (events : List Chunk) (path : StopPath)
    (h : allPositiveSize events = true) :
    collectChunks events = events ∧
    stopRecording path (collectChunks events)
      = (if events = [] then none else some events.flatten) ∧
    (stopRecording path (collectChunks events) = none ↔ events = []) := by
  have hc : collectChunks events = events := by
    simpa [collectChunks] using foldl_ondataavailable events [] h
  refine ⟨hc, ?_, ?_⟩
  · rw [hc]
    cases events with
    | nil => cases path <;> rfl
    | cons c cs => cases path <;> simp [stopRecording]
  · rw [hc]
    cases events with
    | nil => cases path <;> simp [stopRecording]
    | cons c cs => cases path <;> simp [stopRecording]

/-- Witness for C1 on two concrete chunks and the timeout path. -/
theorem stopRecording_no_data_loss_witness :
    allPositiveSize [[1], [2, 3]] = true ∧
    (collectChunks [[1], [2, 3]] = [[1], [2, 3]] ∧
     stopRecording .stopTimeout (collectChunks [[1], [2, 3]])
       = (if ([[1], [2, 3]] : List Chunk) = [] then none
          else some ([[1], [2, 3]] : List Chunk).flatten) ∧
     (stopRecording .stopTimeout (collectChunks [[1], [2, 3]]) = none ↔
        ([[1], [2, 3]] : List Chunk) = [])) :=
  ⟨by decide, stopRecording_no_data_loss [[1], [2, 3]] .stopTimeout (by decide)⟩

/- ## Server data model (shared/schema.ts, server/socket.ts) -/

/-- An interview record, restricted to the fields the verified handlers read
or write (userId, recordingUrl, duration and timestamps are never consulted by
them). -/
structure Interview where
  id : Nat
  jobDescription : String
  skills : List String
  interviewType : String
  difficulty : String
  status : String
deriving DecidableEq

/-- A persisted conversation message row. -/
structure StoredMessage where
  interviewId : Nat
  sender : String
  content : String
deriving DecidableEq

/-- The evaluation produced by the external result-generation call. -/
structure InterviewResults where
  overallRating : Nat
  technicalProficiency : String
  skillRatings : List (String × Nat)
  feedback : String
deriving DecidableEq

/-- A persisted result row. -/
structure StoredResult where
  interviewId : Nat
  overallRating : Nat
  technicalProficiency : String
  skillRatings : List (String × Nat)
  feedback : String
deriving DecidableEq

/-- The persistence collaborator's visible state: interview records, message
rows and result rows. -/
structure Storage where
  interviews : List Interview
  messages : List StoredMessage
  results : List StoredResult
deriving DecidableEq

/-- Storage.getInterview: the interview record with the given id. -/
def getInterview (st : Storage) (iid : Nat) : Option Interview :=
  st.interviews.find? (fun iv => iv.id == iid)

/-- Storage.createMessage: append a message row. -/
def createMessage (st : Storage) (m : StoredMessage) : Storage :=
  { st with messages := st.messages ++ [m] }

/-- Storage.getMessagesByInterviewId: all message rows of one interview. -/
def getMessagesByInterviewId (st : Storage) (iid : Nat) : List StoredMessage :=
  st.messages.filter (fun m => m.interviewId == iid)

/-- Storage.createResult: append a result row. -/
def createResult (st : Storage) (r : StoredResult) : Storage :=
  { st with results := st.results ++ [r] }

/-- Storage.updateInterviewStatus: rewrite the status of the interview with
the given id. -/
def updateInterviewStatus (st : Storage) (iid : Nat) (status : String) : Storage :=
  { st with
    interviews := st.interviews.map
      (fun iv => if iv.id == iid then { iv with status := status } else iv) }

/-- One turn of the in-memory session conversation, as pushed by the socket
handlers (role is "user" or "assistant", content the message text). -/
structure ConvTurn where
  role : String
  content : String
deriving DecidableEq

/-- The per-session record kept in the activeSessions table. -/
structure InterviewSession where
  id : String
  interviewId : Nat
  questions : List String
  currentStage : Nat
  currentQuestion : Nat
  isPaused : Bool
  conversation : List ConvTurn
deriving DecidableEq

/-- Server process state: the activeSessions table (an association list keyed
by session id, modelling the Map) together with the persistence state. -/
structure ServerState where
  sessions : List (String × InterviewSession)
  storage : Storage
deriving DecidableEq

/-- Messages the server pushes over the socket, in emission order. -/
inductive WsEvent where
  | sessionCreated (sessionId : String)
  | aiMessage (text : String)
  | typingIndicator (isTyping : Bool)
  | interviewPaused
  | interviewResumed
  | interviewEnded (message : String)
  | errorReply (error : String)
deriving DecidableEq

/-- Map.get of the activeSessions table. -/
def lookupSession : List (String × InterviewSession) → String → Option InterviewSession
  | [], _ => none
  | (k, v) :: rest, sid => if k = sid then some v else lookupSession rest sid

/-- Map.set of the activeSessions table: replace the entry when the key is
present, append it otherwise. -/
def setSession : List (String × InterviewSession) → String → InterviewSession →
    List (String × InterviewSession)
  | [], sid, v => [(sid, v)]
  | (k, w) :: rest, sid, v =>
    if k = sid then (k, v) :: rest else (k, w) :: setSession rest sid v

/-- Map.delete of the activeSessions table. -/
def removeSession : List (String × InterviewSession) → String →
    List (String × InterviewSession)
  | [], _ => []
  | (k, v) :: rest, sid =>
    if k = sid then removeSession rest sid else (k, v) :: removeSession rest sid

/- ## Conversation orchestrator (generateNextQuestion) -/

/-- A JavaScript value as it may appear in a loosely typed conversation turn:
undefined, null, or a string. -/
inductive JVal where
  | undef
  | null
  | str (s : String)
deriving DecidableEq

/-- JavaScript truthiness of such a value (only a non-empty string is truthy). -/
def truthy : JVal → Bool
  | .str s => !(s == "")
  | _ => false

/-- JavaScript String() coercion of such a value. -/
def jsString : JVal → String
  | .str s => s
  | .null => "null"
  | .undef => "undefined"

/-- A raw history entry handed to generateNextQuestion: the handler reads the
role, sender, content and text properties, any of which may be absent. -/
structure HistTurn where
  role : JVal
  sender : JVal
  content : JVal
  text : JVal
deriving DecidableEq

/-- One message of the outbound chat-completion payload. -/
structure ChatMsg where
  role : String
  content : String
deriving DecidableEq

/-- Role selection of the history loop:
message.role or, when falsy, assistant for sender ai and user otherwise. -/
def roleOf (t : HistTurn) : String :=
  if truthy t.role then jsString t.role
  else if t.sender = .str "ai" then "assistant" else "user"

/-- Content coalescing of the history loop:
message.content or message.text or the empty string. -/
def coalescedContent (t : HistTurn) : JVal :=
  if truthy t.content then t.content
  else if truthy t.text then t.text
  else .str ""

/-- The push step of the history loop: a null entry and an entry whose content
is null or undefined are skipped; every other entry is pushed with its role
and its coalesced content coerced to a string. -/
def pushTurn (entry : Option HistTurn) : Option ChatMsg :=
  match entry with
  | none => none
  | some t =>
    match t.content with
    | .null => none
    | .undef => none
    | .str _ => some ⟨roleOf t, jsString (coalescedContent t)⟩

/-- JavaScript trim(): strip whitespace from both ends of a string. -/
def jsTrim (s : String) : String :=
  String.mk (((s.data.dropWhile Char.isWhitespace).reverse.dropWhile
    Char.isWhitespace).reverse)

/-- The final validation filter: keep only messages whose content does not
trim to the empty string. -/
def validateMessages (msgs : List ChatMsg) : List ChatMsg :=
  msgs.filter (fun m => !(jsTrim m.content == ""))

/-- The messages contributed by the conversation history before validation. -/
def pushedHistory (conversation : List (Option HistTurn)) : List ChatMsg :=
  conversation.filterMap pushTurn

/-- The history-derived portion of the validated outbound payload. -/
def historyPortion (conversation : List (Option HistTurn)) : List ChatMsg :=
  validateMessages (pushedHistory conversation)

/-- The job-description user message heading the payload
(jobDescription or the literal Technical position when falsy). -/
def jobDescriptionMsg (iv : Interview) : ChatMsg :=
  ⟨"user",
    "Job Description: "
      ++ (if iv.jobDescription = "" then "Technical position" else iv.jobDescription)⟩

/-- The validated outbound message list of generateNextQuestion: the system
prompt (a fixed template, abstracted here as a parameter), the job-description
message, then the filtered history, jointly passed through the validation
filter. -/
def buildNextQuestionMessages (systemPrompt : String) (iv : Interview)
    (conversation : List (Option HistTurn)) : List ChatMsg :=
  validateMessages
    ([⟨"system", systemPrompt⟩, jobDescriptionMsg iv] ++ pushedHistory conversation)

/-- Spec-side effective content of a kept turn, per the amended filtering
rule: its content string or, when that string is empty, its text string. -/
def specEffectiveContent (t : HistTurn) : String :=
  match t.content with
  | .str s =>
    if s = "" then
      match t.text with
      | .str u => u
      | _ => ""
    else s
  | _ => ""

/-- Spec-side statement of the amended filtering rule: drop null entries and
entries with null or undefined content, then drop the remaining turns whose
effective content trims to the empty string; forward everything else with its
role and effective content. -/
def specFilteredHistory : List (Option HistTurn) → List ChatMsg
  | [] => []
  | none :: rest => specFilteredHistory rest
  | some t :: rest =>
    match t.content with
    | .null => specFilteredHistory rest
    | .undef => specFilteredHistory rest
    | .str _ =>
      if jsTrim (specEffectiveContent t) = "" then specFilteredHistory rest
      else ⟨roleOf t, specEffectiveContent t⟩ :: specFilteredHistory rest

/-- The fixed fallback text substituted when a successful chat-completion call
returns null or empty content. -/
def openAIFallbackQuestion : String :=
  "Could you tell me more about your experience?"

/-- Outcome of generateNextQuestion as a function of the chat-completion call
outcome: a successful call yields its content, with the fallback text
substituted for null or empty content; a failed call is re-thrown as an
OpenAI API error, not absorbed. -/
def generateNextQuestionOutcome (apiResult : Except String (Option String)) :
    Except String String :=
  match apiResult with
  | .ok content =>
    .ok (match content with
      | some s => if s = "" then openAIFallbackQuestion else s
      | none => openAIFallbackQuestion)
  | .error e => .error ("OpenAI API error: " ++ e)

/- ## Socket message handlers (server/socket.ts) -/

/-- A freshly minted session as built by handleStartInterview. -/
def freshSession (sid : String) (iid : Nat) : InterviewSession :=
  { id := sid, interviewId := iid, questions := [], currentStage := 0,
    currentQuestion := 0, isPaused := false, conversation := [] }

/-- handleStartInterview (socket.ts lines 125-197): mint a session id (passed
in as newSessionId, standing for the uuid), store the fresh session in the
table, send session-created, then look the interview up; a missing interview
record throws, and the surrounding catch answers with an error reply while
the stored session entry stays in the table.  When the interview exists the
delayed welcome message is scheduled by a timeout outside this synchronous
handler, so only session-created is emitted here. -/
def handleStartInterview (st : ServerState) (newSessionId : String)
    (interviewId : Nat) : ServerState × List WsEvent :=
  let sessions1 := setSession st.sessions newSessionId (freshSession newSessionId interviewId)
  match getInterview st.storage interviewId with
  | none =>
    ({ st with sessions := sessions1 },
      [.sessionCreated newSessionId, .errorReply "Failed to start interview"])
  | some _ =>
    ({ st with sessions := sessions1 }, [.sessionCreated newSessionId])

/-- handleUserMessage (socket.ts lines 202-288): an unknown session throws
into the catch-all reply; a paused session is answered with an explicit error
and nothing changes; otherwise the user message is persisted and appended, the
interview is looked up, the typing indicator is raised, and the generation
outcome gen (the generateNextQuestion call) either yields the assistant reply
- emitted after the typing indicator is lowered, then persisted and appended -
or an error reply with the typing indicator left raised. -/
def handleUserMessage (st : ServerState) (sessionId message : String)
    (gen : Except String String) : ServerState × List WsEvent :=
  match lookupSession st.sessions sessionId with
  | none => (st, [.errorReply "Failed to process message"])
  | some session =>
    if session.isPaused then
      (st, [.errorReply "Interview is paused"])
    else
      let storage1 := createMessage st.storage ⟨session.interviewId, "user", message⟩
      let session1 :=
        { session with conversation := session.conversation ++ [⟨"user", message⟩] }
      let sessions1 := setSession st.sessions sessionId session1
      match getInterview storage1 session.interviewId with
      | none => ({ sessions := sessions1, storage := storage1 },
          [.errorReply "Failed to process message"])
      | some _ =>
        match gen with
        | .ok response =>
          let storage2 := createMessage storage1 ⟨session.interviewId, "ai", response⟩
          let session2 :=
            { session1 with
              conversation := session1.conversation ++ [⟨"assistant", response⟩] }
          let sessions2 := setSession sessions1 sessionId session2
          ({ sessions := sessions2, storage := storage2 },
            [.typingIndicator true, .typingIndicator false, .aiMessage response])
        | .error _ =>
          ({ sessions := sessions1, storage := storage1 },
            [.typingIndicator true, .errorReply "Failed to generate response"])

/-- handlePauseInterview (socket.ts lines 293-317): set the isPaused flag of
the session and acknowledge; a missing session throws into the catch reply. -/
def handlePauseInterview (st : ServerState) (sessionId : String) :
    ServerState × List WsEvent :=
  match lookupSession st.sessions sessionId with
  | none => (st, [.errorReply "Failed to pause interview"])
  | some session =>
    ({ st with sessions := setSession st.sessions sessionId { session with isPaused := true } },
      [.interviewPaused])

/-- handleResumeInterview (socket.ts lines 322-346): clear the isPaused flag
of the session and acknowledge; a missing session throws into the catch
reply. -/
def handleResumeInterview (st : ServerState) (sessionId : String) :
    ServerState × List WsEvent :=
  match lookupSession st.sessions sessionId with
  | none => (st, [.errorReply "Failed to resume interview"])
  | some session =>
    ({ st with sessions := setSession st.sessions sessionId { session with isPaused := false } },
      [.interviewResumed])

/-- handleEndInterview (socket.ts lines 351-398): fetch the persisted turns,
look up the interview, run result generation (outcome genResults); on success
persist the result row, mark the interview completed, delete the session and
acknowledge completion; any failure - including a result-generation failure -
throws into the catch, which answers with an error reply and leaves the
session table and storage untouched. -/
def handleEndInterview (st : ServerState) (sessionId : String)
    (genResults : Except String InterviewResults) : ServerState × List WsEvent :=
  match lookupSession st.sessions sessionId with
  | none => (st, [.errorReply "Failed to end interview"])
  | some session =>
    match getInterview st.storage session.interviewId with
    | none => (st, [.errorReply "Failed to end interview"])
    | some _ =>
      match genResults with
      | .error _ => (st, [.errorReply "Failed to end interview"])
      | .ok results =>
        let storage1 := createResult st.storage
          ⟨session.interviewId, results.overallRating, results.technicalProficiency,
            results.skillRatings, results.feedback⟩
        let storage2 := updateInterviewStatus storage1 session.interviewId "completed"
        ({ sessions := removeSession st.sessions sessionId, storage := storage2 },
          [.interviewEnded "Interview completed successfully"])

/- ## Lemmas about the session table and storage -/

theorem lookupSession_setSession (l : List (String × InterviewSession))
    (sid : String) (v : InterviewSession) :
    lookupSession (setSession l sid v) sid = some v := by
  induction l with
  | nil => simp [setSession, lookupSession]
  | cons p rest ih =>
    obtain ⟨k, w⟩ := p
    by_cases h : k = sid <;> simp [setSession, lookupSession, h, ih]

theorem lookupSession_removeSession (l : List (String × InterviewSession))
    (sid : String) :
    lookupSession (removeSession l sid) sid = none := by
  induction l with
  | nil => rfl
  | cons p rest ih =>
    obtain ⟨k, w⟩ := p
    by_cases h : k = sid <;> simp [removeSession, lookupSession, h, ih]

theorem getInterview_createMessage (st : Storage) (m : StoredMessage) (iid : Nat) :
    getInterview (createMessage st m) iid = getInterview st iid := rfl

theorem find?_status_update (l : List Interview) (iid : Nat) (s : String) :
    ((l.map (fun iv => if iv.id == iid then { iv with status := s } else iv)).find?
        (fun iv => iv.id == iid)).map Interview.status
      = ((l.find? (fun iv => iv.id == iid)).map (fun _ => s) : Option String) := by
  induction l with
  | nil => rfl
  | cons iv rest ih =>
    cases hid : (iv.id == iid) with
    | true =>
      have hp : iv.id = iid := by simpa using hid
      simp [List.find?_cons, hp, -List.find?_map]
    | false =>
      have hp : ¬(iv.id = iid) := by simpa using hid
      simp [List.find?_cons, hp, hid, -List.find?_map]
      simpa [-List.find?_map] using ih

theorem getInterview_updateInterviewStatus (st : Storage) (iid : Nat) (s : String) :
    (getInterview (updateInterviewStatus st iid s) iid).map Interview.status
      = ((getInterview st iid).map (fun _ => s) : Option String) := by
  simpa [getInterview, updateInterviewStatus] using
    find?_status_update st.interviews iid s

/- ## Lemmas about the history filter -/

theorem validateMessages_append (a b : List ChatMsg) :
    validateMessages (a ++ b) = validateMessages a ++ validateMessages b := by
  simp [validateMessages, List.filter_append]

theorem jsString_coalescedContent (t : HistTurn) (s : String)
    (hc : t.content = .str s) :
    jsString (coalescedContent t) = specEffectiveContent t := by
  unfold coalescedContent specEffectiveContent
  rw [hc]
  by_cases hs : s = ""
  · subst hs
    simp only [truthy]
    cases ht : t.text with
    | undef => simp [truthy, jsString]
    | null => simp [truthy, jsString]
    | str u => by_cases hu : u = "" <;> simp [truthy, jsString, hu]
  · simp [truthy, hs, jsString]

theorem historyPortion_eq_spec (conv : List (Option HistTurn)) :
    historyPortion conv = specFilteredHistory conv := by
  induction conv with
  | nil => rfl
  | cons entry rest ih =>
    cases entry with
    | none =>
      simpa [historyPortion, pushedHistory, validateMessages, pushTurn,
        specFilteredHistory] using ih
    | some t =>
      cases hc : t.content with
      | null =>
        simpa [historyPortion, pushedHistory, validateMessages, pushTurn, hc,
          specFilteredHistory] using ih
      | undef =>
        simpa [historyPortion, pushedHistory, validateMessages, pushTurn, hc,
          specFilteredHistory] using ih
      | str s =>
        have hcc := jsString_coalescedContent t s hc
        by_cases he : jsTrim (specEffectiveContent t) = ""
        · simpa [historyPortion, pushedHistory, validateMessages, pushTurn, hc,
            specFilteredHistory, hcc, he] using ih
        · simpa [historyPortion, pushedHistory, validateMessages, pushTurn, hc,
            specFilteredHistory, hcc, he] using ih

/- ## Concrete fixtures -/

/-- A stored interview record used by the concrete scenarios. -/
def sampleInterview : Interview :=
  ⟨7, "Build UIs", ["React"], "technical", "junior", "in_progress"⟩

/-- An active session on that interview with one assistant turn. -/
def sampleSession : InterviewSession :=
  ⟨"s1", 7, [], 0, 0, false, [⟨"assistant", "Welcome"⟩]⟩

/-- Server state holding the active session and its interview. -/
def sampleState : ServerState :=
  ⟨[("s1", sampleSession)], ⟨[sampleInterview], [], []⟩⟩

/-- A paused session on the same interview. -/
def pausedSession : InterviewSession :=
  ⟨"s2", 7, [], 0, 0, true, [⟨"assistant", "Welcome"⟩]⟩

/-- Server state holding the paused session and its interview. -/
def pausedState : ServerState :=
  ⟨[("s2", pausedSession)], ⟨[sampleInterview], [], []⟩⟩

/-- Server state with no sessions and empty storage. -/
def emptyServerState : ServerState :=
  ⟨[], ⟨[], [], []⟩⟩

/- ## Event-order observables for the typing-indicator claim -/

/-- Whether an event is a reply to the user message (assistant message or
error). -/
def isReplyEvent : WsEvent → Bool
  | .aiMessage _ => true
  | .errorReply _ => true
  | _ => false

/-- Whether an event is an assistant message. -/
def isAiMessageEvent : WsEvent → Bool
  | .aiMessage _ => true
  | _ => false

/-- Index of the first reply event. -/
def replyIndex (events : List WsEvent) : Option Nat :=
  events.findIdx? isReplyEvent

/-- Index of the first typing-true push. -/
def typingTrueIndex (events : List WsEvent) : Option Nat :=
  events.findIdx? (fun e => decide (e = WsEvent.typingIndicator true))

/-- Index of the first typing-false push. -/
def typingFalseIndex (events : List WsEvent) : Option Nat :=
  events.findIdx? (fun e => decide (e = WsEvent.typingIndicator false))

/-- The ordering asserted by the protocol-ordering claim: the reply exists and
comes after the typing-true push and no later than the typing-false push. -/
def claimedTypingOrder (events : List WsEvent) : Bool :=
  match typingTrueIndex events, replyIndex events, typingFalseIndex events with
  | some i, some r, some f => decide (i < r) && decide (r ≤ f)
  | _, _, _ => false

/- ## Claim theorems for the session protocol and orchestrator -/

/-- C2: a user-message on a paused session is answered with exactly the error
reply Interview is paused, and the whole server state - session table,
conversation and persisted storage - is returned unchanged. -/
theorem userMessage_paused_rejected (st : ServerState) (sid msg : String)
    (sess : InterviewSession) (gen : Except String String)
    (h : lookupSession st.sessions sid = some sess)
    (hp : sess.isPaused = true) :
    handleUserMessage st sid msg gen = (st, [.errorReply "Interview is paused"]) := by
  simp [handleUserMessage, h, hp]

/-- Witness for C2 on the concrete paused session. -/
theorem userMessage_paused_rejected_witness :
    lookupSession pausedState.sessions "s2" = some pausedSession ∧
    pausedSession.isPaused = true ∧
    handleUserMessage pausedState "s2" "hi" (.ok "Q")
      = (pausedState, [.errorReply "Interview is paused"]) :=
  ⟨by decide, rfl,
    userMessage_paused_rejected pausedState "s2" "hi" pausedSession (.ok "Q")
      (by decide) rfl⟩

/-- C3: a failed chat-completion call is re-thrown by generateNextQuestion
(the fallback text is substituted only when the call succeeds with null or
empty content), and the user-message handler then answers with the error reply
Failed to generate response and emits no assistant message at all; the session
survives with the user turn appended. -/
theorem userMessage_generation_failure_behavior :
    generateNextQuestionOutcome (.error "boom") = .error "OpenAI API error: boom" ∧
    generateNextQuestionOutcome (.ok none) = .ok openAIFallbackQuestion ∧
    (handleUserMessage sampleState "s1" "hi" (.error "OpenAI API error: boom")).2
      = [.typingIndicator true, .errorReply "Failed to generate response"] ∧
    ((handleUserMessage sampleState "s1" "hi" (.error "OpenAI API error: boom")).2.all
        (fun e => !isAiMessageEvent e)) = true ∧
    lookupSession
        (handleUserMessage sampleState "s1" "hi" (.error "OpenAI API error: boom")).1.sessions
        "s1"
      = some { sampleSession with
          conversation := sampleSession.conversation ++ [⟨"user", "hi"⟩] } := by
  refine ⟨rfl, rfl, ?_, ?_, ?_⟩ <;> decide

/-- C4 (amended): the validated outbound payload splits into the validated
header and the history portion, and the history portion obeys the amended
filtering rule - null entries and entries with null or undefined content are
dropped, the remaining turns are forwarded with their effective content
(content string, or text string when the content string is empty) unless that
effective content trims to the empty string; a one-element history whose turn
has null content therefore contributes nothing. -/
theorem conversation_history_filtering (systemPrompt : String) (iv : Interview)
    (conv : List (Option HistTurn)) :
    buildNextQuestionMessages systemPrompt iv conv
      = validateMessages [⟨"system", systemPrompt⟩, jobDescriptionMsg iv]
          ++ historyPortion conv ∧
    historyPortion conv = specFilteredHistory conv ∧
    historyPortion [some ⟨.str "user", .undef, .null, .undef⟩] = [] := by
  refine ⟨?_, historyPortion_eq_spec conv, rfl⟩
  exact validateMessages_append _ _

/-- Counterexample to C4 as stated: a turn whose content coerces to the empty
string but whose text field is a non-empty string IS forwarded (with the text
substituted), so the outbound history portion is not smaller than the input. -/
theorem conversation_history_filtering_counterexample :
    jsString (HistTurn.mk (.str "user") .undef (.str "") (.str "hello")).content = "" ∧
    historyPortion [some (HistTurn.mk (.str "user") .undef (.str "") (.str "hello"))]
      = [⟨"user", "hello"⟩] ∧
    (historyPortion
        [some (HistTurn.mk (.str "user") .undef (.str "") (.str "hello"))]).length
      = 1 := by
  refine ⟨rfl, ?_, ?_⟩ <;> decide

/-- C6: on an existing session and interview, a result-generation failure
leaves the entire server state unchanged - the session stays in the table, no
result row is written, the interview is not marked completed - and only an
error reply is sent; a result-generation success appends the result row, marks
the interview completed, deletes the session and acknowledges completion. -/
theorem endInterview_result_outcome (st : ServerState) (sid e : String)
    (r : InterviewResults) (sess : InterviewSession)
    (h : lookupSession st.sessions sid = some sess)
    (hiv : (getInterview st.storage sess.interviewId).isSome = true) :
    handleEndInterview st sid (.error e) = (st, [.errorReply "Failed to end interview"]) ∧
    (handleEndInterview st sid (.ok r)).2
      = [.interviewEnded "Interview completed successfully"] ∧
    lookupSession (handleEndInterview st sid (.ok r)).1.sessions sid = none ∧
    (handleEndInterview st sid (.ok r)).1.storage.results
      = st.storage.results
          ++ [⟨sess.interviewId, r.overallRating, r.technicalProficiency,
              r.skillRatings, r.feedback⟩] ∧
    (getInterview (handleEndInterview st sid (.ok r)).1.storage sess.interviewId).map
        Interview.status = some "completed" := by
  obtain ⟨iv, hiv'⟩ := Option.isSome_iff_exists.mp hiv
  refine ⟨?_, ?_, ?_, ?_, ?_⟩
  · simp [handleEndInterview, h, hiv']
  · simp [handleEndInterview, h, hiv']
  · simp [handleEndInterview, h, hiv', lookupSession_removeSession]
  · simp [handleEndInterview, h, hiv', createResult, updateInterviewStatus]
  · have hres : (getInterview (createResult st.storage
        ⟨sess.interviewId, r.overallRating, r.technicalProficiency,
          r.skillRatings, r.feedback⟩) sess.interviewId) = some iv := hiv'
    simp [handleEndInterview, h, hiv', getInterview_updateInterviewStatus, hres]

/-- Witness for C6 on the concrete active session. -/
theorem endInterview_result_outcome_witness :
    lookupSession sampleState.sessions "s1" = some sampleSession ∧
    (getInterview sampleState.storage sampleSession.interviewId).isSome = true ∧
    (handleEndInterview sampleState "s1" (.error "down")
        = (sampleState, [.errorReply "Failed to end interview"]) ∧
     (handleEndInterview sampleState "s1" (.ok ⟨8, "Strong", [("React", 8)], "good"⟩)).2
        = [.interviewEnded "Interview completed successfully"] ∧
     lookupSession
        (handleEndInterview sampleState "s1"
          (.ok ⟨8, "Strong", [("React", 8)], "good"⟩)).1.sessions "s1" = none ∧
     (handleEndInterview sampleState "s1"
          (.ok ⟨8, "Strong", [("React", 8)], "good"⟩)).1.storage.results
        = sampleState.storage.results
            ++ [⟨sampleSession.interviewId, 8, "Strong", [("React", 8)], "good"⟩] ∧
     (getInterview
          (handleEndInterview sampleState "s1"
            (.ok ⟨8, "Strong", [("React", 8)], "good"⟩)).1.storage
          sampleSession.interviewId).map Interview.status = some "completed") :=
  ⟨by decide, by decide,
    endInterview_result_outcome sampleState "s1" "down"
      ⟨8, "Strong", [("React", 8)], "good"⟩ sampleSession (by decide) (by decide)⟩

/-- Counterexample to C7 as stated: on the concrete active session with a
successful generation, the emitted order is typing-true, typing-false, reply;
the reply comes strictly after the typing-false push, so the claimed ordering
(reply before or together with typing-false) is violated. -/
theorem userMessage_typing_order_counterexample :
    (handleUserMessage sampleState "s1" "hi" (.ok "Next question")).2
      = [.typingIndicator true, .typingIndicator false, .aiMessage "Next question"] ∧
    claimedTypingOrder (handleUserMessage sampleState "s1" "hi" (.ok "Next question")).2
      = false := by
  refine ⟨?_, ?_⟩ <;> decide

/-- C7 (amended): in an active session, the reply always comes after the
typing-true push; on success the typing-false push immediately precedes the
assistant reply, and on generation failure the error reply follows typing-true
with no typing-false push at all. -/
theorem userMessage_typing_order (st : ServerState) (sid msg gr ge : String)
    (sess : InterviewSession)
    (h : lookupSession st.sessions sid = some sess)
    (hp : sess.isPaused = false)
    (hiv : (getInterview st.storage sess.interviewId).isSome = true) :
    (handleUserMessage st sid msg (.ok gr)).2
      = [.typingIndicator true, .typingIndicator false, .aiMessage gr] ∧
    (handleUserMessage st sid msg (.error ge)).2
      = [.typingIndicator true, .errorReply "Failed to generate response"] := by
  obtain ⟨iv, hiv'⟩ := Option.isSome_iff_exists.mp hiv
  constructor <;> simp [handleUserMessage, h, hp, getInterview_createMessage, hiv']

/-- Witness for the amended C7 on the concrete active session. -/
theorem userMessage_typing_order_witness :
    lookupSession sampleState.sessions "s1" = some sampleSession ∧
    sampleSession.isPaused = false ∧
    (getInterview sampleState.storage sampleSession.interviewId).isSome = true ∧
    ((handleUserMessage sampleState "s1" "hi" (.ok "Q")).2
        = [.typingIndicator true, .typingIndicator false, .aiMessage "Q"] ∧
     (handleUserMessage sampleState "s1" "hi" (.error "down")).2
        = [.typingIndicator true, .errorReply "Failed to generate response"]) :=
  ⟨by decide, rfl, by decide,
    userMessage_typing_order sampleState "s1" "hi" "Q" "down" sampleSession
      (by decide) rfl (by decide)⟩

/-- C8: on an existing session, pause and resume replace only the isPaused
flag of that session's table entry (every other field is carried over by the
record update), answer with the matching acknowledgment, and leave persisted
storage untouched. -/
theorem pauseResume_pure_flag_flip (st : ServerState) (sid : String)
    (sess : InterviewSession)
    (h : lookupSession st.sessions sid = some sess) :
    handlePauseInterview st sid
      = ({ st with sessions := setSession st.sessions sid { sess with isPaused := true } },
         [.interviewPaused]) ∧
    handleResumeInterview st sid
      = ({ st with sessions := setSession st.sessions sid { sess with isPaused := false } },
         [.interviewResumed]) ∧
    (handlePauseInterview st sid).1.storage = st.storage ∧
    (handleResumeInterview st sid).1.storage = st.storage ∧
    lookupSession (handlePauseInterview st sid).1.sessions sid
      = some { sess with isPaused := true } ∧
    lookupSession (handleResumeInterview st sid).1.sessions sid
      = some { sess with isPaused := false } := by
  refine ⟨?_, ?_, ?_, ?_, ?_, ?_⟩ <;>
    simp [handlePauseInterview, handleResumeInterview, h, lookupSession_setSession]

/-- Witness for C8 on the concrete active session. -/
theorem pauseResume_pure_flag_flip_witness :
    lookupSession sampleState.sessions "s1" = some sampleSession ∧
    (handlePauseInterview sampleState "s1"
        = ({ sampleState with
              sessions := setSession sampleState.sessions "s1"
                { sampleSession with isPaused := true } },
           [.interviewPaused]) ∧
     handleResumeInterview sampleState "s1"
        = ({ sampleState with
              sessions := setSession sampleState.sessions "s1"
                { sampleSession with isPaused := false } },
           [.interviewResumed]) ∧
     (handlePauseInterview sampleState "s1").1.storage = sampleState.storage ∧
     (handleResumeInterview sampleState "s1").1.storage = sampleState.storage ∧
     lookupSession (handlePauseInterview sampleState "s1").1.sessions "s1"
        = some { sampleSession with isPaused := true } ∧
     lookupSession (handleResumeInterview sampleState "s1").1.sessions "s1"
        = some { sampleSession with isPaused := false }) :=
  ⟨by decide, pauseResume_pure_flag_flip sampleState "s1" sampleSession (by decide)⟩

/-- C10: when the interview id of a start-session message has no stored
record, the handler still stores the fresh session under the minted id and
emits session-created before the error reply, and the stored entry survives
the error - it is still found in the table afterwards while storage is
untouched. -/
theorem startInterview_missing_interview (st : ServerState) (sid : String)
    (iid : Nat)
    (h : getInterview st.storage iid = none) :
    handleStartInterview st sid iid
      = ({ st with sessions := setSession st.sessions sid (freshSession sid iid) },
         [.sessionCreated sid, .errorReply "Failed to start interview"]) ∧
    lookupSession (handleStartInterview st sid iid).1.sessions sid
      = some (freshSession sid iid) ∧
    (handleStartInterview st sid iid).1.storage = st.storage := by
  refine ⟨?_, ?_, ?_⟩ <;>
    simp [handleStartInterview, h, lookupSession_setSession]

/-- Witness for C10: starting against empty storage with an unknown interview
id. -/
theorem startInterview_missing_interview_witness :
    getInterview emptyServerState.storage 42 = none ∧
    (handleStartInterview emptyServerState "s9" 42
        = ({ emptyServerState with
              sessions := setSession emptyServerState.sessions "s9" (freshSession "s9" 42) },
           [.sessionCreated "s9", .errorReply "Failed to start interview"]) ∧
     lookupSession (handleStartInterview emptyServerState "s9" 42).1.sessions "s9"
        = some (freshSession "s9" 42) ∧
     (handleStartInterview emptyServerState "s9" 42).1.storage
        = emptyServerState.storage) :=
  ⟨rfl, startInterview_missing_interview emptyServerState "s9" 42 rfl⟩

end AIInterview
